import Mathlib

/-!
Verification of the sp1-zkemail proof-generation pipeline
(`script/src/bin/main.rs`) against its specification.

The single source file is an orchestration script: it selects a run mode
from two CLI flags, persists a raw email for an external canonicalizer
child process, reads back the structured `EmailInputs` artifact, and then
either executes the zkVM program or proves and verifies it.

The embedding models every external effect (file system, child process,
prover capability) as fields of an `Env` record describing how the outside
world behaves during one run, and translates the two functions of the
source, `generate_email_inputs` and `main`, into pure Lean functions from
`Env` (and the parsed `Args`) to an `Outcome` (normal exit with a code, or
a Rust panic with its message) together with the ordered trace of
observable operations and printed lines.
-/

set_option maxRecDepth 4096

namespace ZkEmail

/-- A minimal JSON value tree, the structural level of the
`email-inputs.json` artifact. The textual lexing performed by
`serde_json::from_str` is below the level of this embedding; the artifact's
content is modelled at the value level. -/
inductive Json where
  | null
  | bool (b : Bool)
  | num (n : Int)
  | str (s : String)
  | arr (elems : List Json)
  | obj (fields : List (String × Json))

/-- `EmailInputs` from `main.rs` lines 21-29: the five-field structured
record produced by the canonicalizer, deserialized with
`#[serde(rename_all = "camelCase")]`. -/
structure EmailInputs where
  public_key : String
  signature : String
  headers : String
  body : String
  body_hash : String
  deriving DecidableEq, Repr

/-- Field lookup as `serde` performs it on a JSON object: a missing key is
an error, a duplicated key is an error, otherwise the value is returned. -/
def getField (fields : List (String × Json)) (key : String) : Except String Json :=
  match fields.filter (fun kv => kv.1 = key) with
  | [] => .error ("missing field `" ++ key ++ "`")
  | [kv] => .ok kv.2
  | _ => .error ("duplicate field `" ++ key ++ "`")

/-- `serde` deserialization of a JSON value into a Rust `String` field. -/
def asString : Json → Except String String
  | .str s => .ok s
  | _ => .error "invalid type: expected a string"

/-- The derived `Deserialize` for `EmailInputs` with camelCase key
renaming: the artifact must be an object carrying the five string fields
`publicKey`, `signature`, `headers`, `body`, `bodyHash`. -/
def EmailInputs.fromJson : Json → Except String EmailInputs
  | .obj fields => do
      let pk ← getField fields "publicKey" >>= asString
      let sg ← getField fields "signature" >>= asString
      let hd ← getField fields "headers" >>= asString
      let bd ← getField fields "body" >>= asString
      let bh ← getField fields "bodyHash" >>= asString
      pure { public_key := pk, signature := sg, headers := hd, body := bd, body_hash := bh }
  | _ => .error "invalid type: expected an object"

/-- Modelled from the spec: the serialization format of the output artifact
written by the external canonicalizer (`email-input/generate-email-inputs.js`,
whose sources are not under `src/`). Per the spec's external-interface
section it is a field-keyed record with lower-camel-case keys `publicKey`,
`signature`, `headers`, `body`, `bodyHash`. -/
def EmailInputs.toJson (e : EmailInputs) : Json :=
  .obj [("publicKey", .str e.public_key),
        ("signature", .str e.signature),
        ("headers", .str e.headers),
        ("body", .str e.body),
        ("bodyHash", .str e.body_hash)]

/-- All five fields of an `EmailInputs` record are non-empty. -/
def EmailInputs.allNonEmpty (e : EmailInputs) : Bool :=
  decide (e.public_key ≠ "") && decide (e.signature ≠ "") &&
  decide (e.headers ≠ "") && decide (e.body ≠ "") && decide (e.body_hash ≠ "")

/-- The parsed command line (`Args` in `main.rs` lines 35-46): the two mode
flags and the `--n` flag (a `u32` defaulting to 20). -/
structure Args where
  execute : Bool
  prove : Bool
  n : Nat
  deriving DecidableEq, Repr

/-- Observable operations and printed lines of one pipeline run, in
program order. -/
inductive Event where
  /-- `eprintln!("Error: You must specify either --execute or --prove")` -/
  | modeError
  /-- `ProverClient::new()` -/
  | clientNew
  /-- `fs::read_to_string("test-emails/test-email.eml")` -/
  | readTestEmail
  /-- `fs::write("email-input/email.eml", email)` -/
  | writeEmailEml
  /-- `fs::remove_file("email-input/email-inputs.json")` -/
  | deleteStaleArtifact
  /-- spawning `sh -c "cd email-input && node generate-email-inputs.js"` -/
  | spawnCanonicalizer
  /-- `fs::read_to_string("email-input/email-inputs.json")` -/
  | readArtifact
  /-- `client.execute(ZKEMAIL_ELF, stdin).run()` -/
  | executeProgram
  /-- `println!("Program executed successfully.")` -/
  | printExecuted
  /-- `println!("Output: {:?}", output)` -/
  | printOutputLine
  /-- `println!("Number of cycles: {}", ...)` -/
  | printCycles
  /-- `client.setup(ZKEMAIL_ELF)` -/
  | setupKeys
  /-- `client.prove(&pk, stdin).run()` -/
  | proveProgram
  /-- `println!("Successfully generated proof!")` -/
  | printProofGenerated
  /-- `client.verify(&proof, &vk)` -/
  | verifyProof
  /-- `println!("Successfully verified proof!")` -/
  | printProofVerified
  deriving DecidableEq, Repr

/-- How the external world behaves during one run: contents of the input
files, success or failure of each file-system and process operation, what
the canonicalizer child writes, and the outcome of each prover-capability
operation. -/
structure Env where
  /-- Contents of `test-emails/test-email.eml`; `none` when the file is
  missing. -/
  testEmail : Option String
  /-- Whether `fs::write("email-input/email.eml", ...)` succeeds. -/
  writeEmailOk : Bool
  /-- Whether `email-input/email-inputs.json` exists before the run
  (`fs::metadata(...).is_ok()`). -/
  staleExists : Bool
  /-- Whether `fs::remove_file` on the stale artifact succeeds. -/
  deleteOk : Bool
  /-- Whether spawning the `sh` child succeeds. -/
  spawnOk : Bool
  /-- Whether `wait()` on the child returns at all (an OS-level wait
  failure, not the child's exit status). -/
  waitOk : Bool
  /-- The child's exit status code. The source drops the `ExitStatus`
  returned by `wait()`, so this field is never read by the model. -/
  childExitCode : Nat
  /-- The artifact content present at `email-input/email-inputs.json`
  after the canonicalizer ran; `none` when no artifact was written. The
  stale artifact was deleted beforehand, so this is exactly what the read
  step sees. -/
  canonWrites : Option Json
  /-- `Display` of the `io::Error` if reading the artifact fails. -/
  ioReadErr : String
  /-- Whether `client.execute(...).run()` succeeds. -/
  executeOk : Bool
  /-- `Debug` text of the execution error when it fails (the `unwrap`
  panic payload). -/
  executeErrMsg : String
  /-- Whether `client.prove(&pk, stdin).run()` succeeds. -/
  proveOk : Bool
  /-- Whether `client.verify(&proof, &vk)` succeeds. -/
  verifyOk : Bool

/-- Result of `generate_email_inputs`: the `Result<EmailInputs, String>`
it returns to the caller, or a process-aborting panic raised by one of its
`expect` calls. -/
inductive GenResult where
  | panic (msg : String)
  | err (msg : String)
  | ok (inputs : EmailInputs)
  deriving DecidableEq, Repr

/-- How the process terminates: a normal exit with a status code, or a
Rust panic (which terminates the process with a non-zero status). -/
inductive Outcome where
  | exited (code : Nat)
  | panicked (msg : String)
  deriving DecidableEq, Repr

/-- The process terminates with a non-zero status: a non-zero exit code,
or a panic (Rust panics in `main` abort with status 101). -/
def Outcome.nonZero : Outcome → Bool
  | .exited code => code != 0
  | .panicked _ => true

/-- `generate_email_inputs` from `main.rs` lines 48-94, as a function of
the environment. Steps in source order: persist `email.eml` (`expect` on
failure), delete a stale `email-inputs.json` if present (`expect` on
failure), spawn the canonicalizer and wait for it (`expect` on spawn or
wait failure; the child's `ExitStatus` is dropped without inspection),
then read and parse the artifact, returning `Err` with a
`failed to read ...` or `failed to parse ...` message respectively. -/
def generate_email_inputs (env : Env) : GenResult × List Event :=
  if !env.writeEmailOk then
    (.panic "failed to write email.eml", [.writeEmailEml])
  else
    let tr1 : List Event :=
      if env.staleExists then [.writeEmailEml, .deleteStaleArtifact] else [.writeEmailEml]
    if env.staleExists && !env.deleteOk then
      (.panic "failed to delete email-inputs.json", tr1)
    else if !env.spawnOk then
      (.panic "failed to run generate-email-inputs.js", tr1 ++ [.spawnCanonicalizer])
    else if !env.waitOk then
      (.panic "failed to wait for generate-email-inputs.js", tr1 ++ [.spawnCanonicalizer])
    else
      let res : GenResult :=
        match env.canonWrites with
        | none => .err ("failed to read email-inputs.json: " ++ env.ioReadErr)
        | some j =>
          match EmailInputs.fromJson j with
          | .ok inputs => .ok inputs
          | .error e => .err ("failed to parse email-inputs.json: " ++ e)
      (res, tr1 ++ [.spawnCanonicalizer, .readArtifact])

/-- `main` from `main.rs` lines 96-148. In source order: the mode check
(`eprintln` + `exit(1)` when the flags agree), `ProverClient::new()`,
reading the test email (`expect` on failure), `generate_email_inputs`
(`expect` on its `Err`), then the mode branch: execute (`unwrap` on
failure, three prints) or prove (`setup`, `prove` with `expect`,
proof-generated print, `verify` with `expect`, proof-verified print). -/
def mainModel (args : Args) (env : Env) : Outcome × List Event :=
  if args.execute = args.prove then
    (.exited 1, [.modeError])
  else
    let tr0 : List Event := [.clientNew, .readTestEmail]
    match env.testEmail with
    | none =>
        (.panicked "Failed to read test email file - ensure test-emails/test-email.eml exists",
         tr0)
    | some _email =>
      match generate_email_inputs env with
      | (.panic m, g) => (.panicked m, tr0 ++ g)
      | (.err m, g) => (.panicked ("Failed to generate email inputs: " ++ m), tr0 ++ g)
      | (.ok _inputs, g) =>
        let tr1 := tr0 ++ g
        if args.execute then
          if env.executeOk then
            (.exited 0, tr1 ++ [.executeProgram, .printExecuted, .printOutputLine, .printCycles])
          else
            (.panicked env.executeErrMsg, tr1 ++ [.executeProgram])
        else
          if env.proveOk then
            if env.verifyOk then
              (.exited 0,
               tr1 ++ [.setupKeys, .proveProgram, .printProofGenerated,
                       .verifyProof, .printProofVerified])
            else
              (.panicked "failed to verify proof",
               tr1 ++ [.setupKeys, .proveProgram, .printProofGenerated, .verifyProof])
          else
            (.panicked "failed to generate proof", tr1 ++ [.setupKeys, .proveProgram])

/-! ### Concrete sample inputs -/

/-- A sample five-field record with non-empty fields. -/
def sample : EmailInputs :=
  ⟨"samplePk", "sampleSig", "sampleHeaders", "sampleBody", "sampleBodyHash"⟩

/-- An environment in which every external operation behaves well and the
canonicalizer writes a well-formed artifact. -/
def env0 : Env :=
  { testEmail := some "raw email text"
    writeEmailOk := true
    staleExists := false
    deleteOk := true
    spawnOk := true
    waitOk := true
    childExitCode := 0
    canonWrites := some sample.toJson
    ioReadErr := "No such file or directory (os error 2)"
    executeOk := true
    executeErrMsg := "called Result unwrap on an Err value"
    proveOk := true
    verifyOk := true }

/-- The prove-mode command line (`--prove`, `--n` at its default 20). -/
def argsProve : Args := ⟨false, true, 20⟩

/-- The execute-mode command line (`--execute`, `--n` at its default 20). -/
def argsExec : Args := ⟨true, false, 20⟩

/-! ### Helper lemmas -/

/-- Every event in the trace of `generate_email_inputs` is one of its four
file-system or process operations. -/
theorem gen_trace_subset (env : Env) (e : Event)
    (he : e ∈ (generate_email_inputs env).2) :
    e = .writeEmailEml ∨ e = .deleteStaleArtifact ∨
    e = .spawnCanonicalizer ∨ e = .readArtifact := by
  unfold generate_email_inputs at he
  cases hw : env.writeEmailOk <;> cases hst : env.staleExists <;>
    cases hd : env.deleteOk <;> cases hsp : env.spawnOk <;> cases hwa : env.waitOk <;>
    simp [hw, hst, hd, hsp, hwa] at he <;> tauto

/-- Events other than the four generator operations never occur in the
generator's trace. -/
theorem not_mem_gen_trace (env : Env) (e : Event)
    (h1 : e ≠ .writeEmailEml) (h2 : e ≠ .deleteStaleArtifact)
    (h3 : e ≠ .spawnCanonicalizer) (h4 : e ≠ .readArtifact) :
    e ∉ (generate_email_inputs env).2 := by
  intro he
  rcases gen_trace_subset env e he with h | h | h | h <;> simp_all

/-- The read-failure message and the parse-failure message are distinct
whatever their appended causes: the two error kinds cannot be confused. -/
theorem readMsg_ne_parseMsg (a b : String) :
    "failed to read email-inputs.json: " ++ a ≠
    "failed to parse email-inputs.json: " ++ b := by
  intro h
  have hd := congrArg String.data h
  rw [String.data_append, String.data_append] at hd
  have h10 := congrArg (fun l => l[10]?) hd
  dsimp only at h10
  rw [List.getElem?_append_left (by decide), List.getElem?_append_left (by decide)] at h10
  exact absurd h10 (by decide)

/-- Deserialization inverts the canonicalizer's serialization format. -/
theorem fromJson_toJson (e : EmailInputs) : EmailInputs.fromJson e.toJson = .ok e := rfl

/-- When the persist, stale-delete, spawn and wait steps all succeed,
`generate_email_inputs` reaches the read-and-parse step and its result is
determined by the artifact content alone. -/
theorem gen_happy_path (env : Env)
    (hw : env.writeEmailOk = true) (hsd : env.staleExists = true → env.deleteOk = true)
    (hsp : env.spawnOk = true) (hwa : env.waitOk = true) :
    generate_email_inputs env =
      ((match env.canonWrites with
        | none => .err ("failed to read email-inputs.json: " ++ env.ioReadErr)
        | some j =>
          match EmailInputs.fromJson j with
          | .ok inputs => .ok inputs
          | .error e => .err ("failed to parse email-inputs.json: " ++ e)),
       (if env.staleExists then
          [Event.writeEmailEml, Event.deleteStaleArtifact]
        else [Event.writeEmailEml]) ++ [.spawnCanonicalizer, .readArtifact]) := by
  cases hst : env.staleExists
  · simp [generate_email_inputs, hw, hst, hsp, hwa]
  · simp [generate_email_inputs, hw, hst, hsd hst, hsp, hwa]

/-! ### Claim theorems -/

/-- C9: `generate_email_inputs` returns an `Err` value of its `Result`
type only for a read failure or a parse failure of the output artifact;
failures of the persist step, the stale-artifact deletion step, and the
canonicalizer spawn and wait steps abort the process by panic and are
never returned to the caller as an error value. -/
theorem gen_err_only_read_parse (env : Env) :
    (∀ m, (generate_email_inputs env).1 = GenResult.err m →
       (env.canonWrites = none ∧
          m = "failed to read email-inputs.json: " ++ env.ioReadErr) ∨
       (∃ j e, env.canonWrites = some j ∧ EmailInputs.fromJson j = .error e ∧
          m = "failed to parse email-inputs.json: " ++ e)) ∧
    (env.writeEmailOk = false →
       (generate_email_inputs env).1 = .panic "failed to write email.eml") ∧
    (env.writeEmailOk = true → env.staleExists = true → env.deleteOk = false →
       (generate_email_inputs env).1 = .panic "failed to delete email-inputs.json") ∧
    (env.writeEmailOk = true → (env.staleExists = true → env.deleteOk = true) →
       env.spawnOk = false →
       (generate_email_inputs env).1 = .panic "failed to run generate-email-inputs.js") ∧
    (env.writeEmailOk = true → (env.staleExists = true → env.deleteOk = true) →
       env.spawnOk = true → env.waitOk = false →
       (generate_email_inputs env).1 = .panic "failed to wait for generate-email-inputs.js") := by
  refine ⟨?_, ?_, ?_, ?_, ?_⟩
  · intro m hm
    simp only [generate_email_inputs] at hm
    split at hm
    · simp at hm
    · split at hm
      · simp at hm
      · split at hm
        · simp at hm
        · split at hm
          · simp at hm
          · simp only [] at hm
            split at hm
            · rename_i heq
              simp at hm
              exact Or.inl ⟨heq, hm.symm⟩
            · rename_i j heq
              split at hm
              · simp at hm
              · rename_i e' heq2
                simp at hm
                exact Or.inr ⟨j, e', heq, heq2, hm.symm⟩
  · intro hw
    simp [generate_email_inputs, hw]
  · intro hw hst hd
    simp [generate_email_inputs, hw, hst, hd]
  · intro hw hsd hsp
    cases hst : env.staleExists
    · simp [generate_email_inputs, hw, hst, hsp]
    · simp [generate_email_inputs, hw, hst, hsd hst, hsp]
  · intro hw hsd hsp hwa
    cases hst : env.staleExists
    · simp [generate_email_inputs, hw, hst, hsp, hwa]
    · simp [generate_email_inputs, hw, hst, hsd hst, hsp, hwa]

/-- C9 witness: with the persist step failing, the generator panics with
the write message rather than returning an error value. -/
theorem gen_err_only_read_parse_witness :
    (generate_email_inputs { env0 with writeEmailOk := false }).1 =
      GenResult.panic "failed to write email.eml" :=
  (gen_err_only_read_parse { env0 with writeEmailOk := false }).2.1 rfl

/-- C5: in the read-and-parse step, a missing output artifact yields the
read-failure error and a malformed artifact yields the parse-failure
error; the two messages are distinct whatever their causes, and an `Ok`
result only ever comes from a successful parse of an existing artifact --
never from a default record. -/
theorem read_parse_errors_distinct (env : Env)
    (hw : env.writeEmailOk = true) (hsd : env.staleExists = true → env.deleteOk = true)
    (hsp : env.spawnOk = true) (hwa : env.waitOk = true) :
    (env.canonWrites = none →
       (generate_email_inputs env).1 =
         GenResult.err ("failed to read email-inputs.json: " ++ env.ioReadErr)) ∧
    (∀ j e, env.canonWrites = some j → EmailInputs.fromJson j = .error e →
       (generate_email_inputs env).1 =
         GenResult.err ("failed to parse email-inputs.json: " ++ e)) ∧
    (∀ a b, ("failed to read email-inputs.json: " ++ a) ≠
       ("failed to parse email-inputs.json: " ++ b)) ∧
    (∀ i, (generate_email_inputs env).1 = GenResult.ok i →
       ∃ j, env.canonWrites = some j ∧ EmailInputs.fromJson j = .ok i) := by
  rw [gen_happy_path env hw hsd hsp hwa]
  refine ⟨?_, ?_, readMsg_ne_parseMsg, ?_⟩
  · intro h; rw [h]
  · intro j e hj he
    rw [hj]
    simp [he]
  · intro i hi
    rcases hcw : env.canonWrites with _ | j <;> rw [hcw] at hi
    · simp at hi
    · rcases hfj : EmailInputs.fromJson j with e' | i' <;> simp [hfj] at hi
      exact ⟨j, rfl, by rw [hfj, hi]⟩

/-- C5 witness: with no artifact present the generator returns the
read-failure error value. -/
theorem read_parse_errors_distinct_witness :
    (generate_email_inputs { env0 with canonWrites := none }).1 =
      GenResult.err ("failed to read email-inputs.json: " ++ env0.ioReadErr) :=
  (read_parse_errors_distinct { env0 with canonWrites := none }
      rfl (fun _ => rfl) rfl rfl).1 rfl

/-- C6: when a stale artifact exists, a failing deletion is fatal and the
canonicalizer is never spawned; whenever the canonicalizer is spawned, the
deletion of the stale artifact strictly precedes the spawn in the trace. -/
theorem stale_cleared_before_spawn (env : Env) :
    (env.writeEmailOk = true → env.staleExists = true → env.deleteOk = false →
       (generate_email_inputs env).1 = GenResult.panic "failed to delete email-inputs.json" ∧
       Event.spawnCanonicalizer ∉ (generate_email_inputs env).2) ∧
    (env.staleExists = true →
       Event.spawnCanonicalizer ∈ (generate_email_inputs env).2 →
       ∃ rest, (generate_email_inputs env).2 =
           [Event.writeEmailEml, Event.deleteStaleArtifact] ++ rest ∧
         Event.spawnCanonicalizer ∈ rest) := by
  constructor
  · intro hw hst hd
    constructor <;> simp [generate_email_inputs, hw, hst, hd]
  · intro hst hmem
    cases hw : env.writeEmailOk
    · simp [generate_email_inputs, hw] at hmem
    · cases hd : env.deleteOk
      · simp [generate_email_inputs, hw, hst, hd] at hmem
      · cases hsp : env.spawnOk
        · refine ⟨[.spawnCanonicalizer], ?_, by simp⟩
          simp [generate_email_inputs, hw, hst, hd, hsp]
        · cases hwa : env.waitOk
          · refine ⟨[.spawnCanonicalizer], ?_, by simp⟩
            simp [generate_email_inputs, hw, hst, hd, hsp, hwa]
          · refine ⟨[.spawnCanonicalizer, .readArtifact], ?_, by simp⟩
            simp [generate_email_inputs, hw, hst, hd, hsp, hwa]

/-- C6 witness: with a stale artifact present and deletion failing, the
generator panics with the delete message and never spawns the child. -/
theorem stale_cleared_before_spawn_witness :
    (generate_email_inputs { env0 with staleExists := true, deleteOk := false }).1 =
      GenResult.panic "failed to delete email-inputs.json" ∧
    Event.spawnCanonicalizer ∉
      (generate_email_inputs { env0 with staleExists := true, deleteOk := false }).2 :=
  (stale_cleared_before_spawn { env0 with staleExists := true, deleteOk := false }).1
    rfl rfl rfl

/-- C2 counterexample: the child's exit status is never inspected. With
spawn and wait succeeding, a child exit status of 1 and a parseable
artifact present, `generate_email_inputs` returns `Ok` -- the pipeline
proceeds exactly as if canonicalization had succeeded, with no fatal
failure reporting the non-zero status. -/
theorem canon_exit_status_ignored_cex :
    ({ env0 with childExitCode := 1 } : Env).childExitCode ≠ 0 ∧
    (generate_email_inputs { env0 with childExitCode := 1 }).1 = GenResult.ok sample := by
  exact ⟨by decide, rfl⟩

/-- C2 amended: a spawn failure and a wait failure of the canonicalizer
child are fatal and reported verbatim; the child's exit status, however,
is never inspected, so two runs differing only in the exit status behave
identically -- a non-zero exit is not itself fatal. -/
theorem canon_spawn_wait_fatal_exit_ignored (env : Env) (c₁ c₂ : Nat) :
    (env.writeEmailOk = true → (env.staleExists = true → env.deleteOk = true) →
       env.spawnOk = false →
       (generate_email_inputs env).1 =
         GenResult.panic "failed to run generate-email-inputs.js") ∧
    (env.writeEmailOk = true → (env.staleExists = true → env.deleteOk = true) →
       env.spawnOk = true → env.waitOk = false →
       (generate_email_inputs env).1 =
         GenResult.panic "failed to wait for generate-email-inputs.js") ∧
    generate_email_inputs { env with childExitCode := c₁ } =
      generate_email_inputs { env with childExitCode := c₂ } := by
  refine ⟨?_, ?_, rfl⟩
  · intro hw hsd hsp
    cases hst : env.staleExists
    · simp [generate_email_inputs, hw, hst, hsp]
    · simp [generate_email_inputs, hw, hst, hsd hst, hsp]
  · intro hw hsd hsp hwa
    cases hst : env.staleExists
    · simp [generate_email_inputs, hw, hst, hsp, hwa]
    · simp [generate_email_inputs, hw, hst, hsd hst, hsp, hwa]

/-- C2 amended witness: a spawn failure panics with the spawn message. -/
theorem canon_spawn_wait_fatal_witness :
    (generate_email_inputs { env0 with spawnOk := false }).1 =
      GenResult.panic "failed to run generate-email-inputs.js" :=
  (canon_spawn_wait_fatal_exit_ignored { env0 with spawnOk := false } 0 1).1
    rfl (fun _ => rfl) rfl

/-- C4 (spec-modelled canonicalizer): when the canonicalizer accepts the
email -- modelled, per the spec's collaborator contract, as it having
written an artifact in its output format serializing a record whose five
fields are all non-empty -- and the preceding steps succeed, the generator
returns exactly that record, so its output has all five fields non-empty
and a record with an empty field is never substituted. -/
theorem accepted_email_gives_nonempty_fields (env : Env) (r : EmailInputs)
    (hw : env.writeEmailOk = true) (hsd : env.staleExists = true → env.deleteOk = true)
    (hsp : env.spawnOk = true) (hwa : env.waitOk = true)
    (hcw : env.canonWrites = some r.toJson) (hne : r.allNonEmpty = true) :
    (generate_email_inputs env).1 = GenResult.ok r ∧ r.allNonEmpty = true := by
  refine ⟨?_, hne⟩
  rw [gen_happy_path env hw hsd hsp hwa, hcw]
  simp [fromJson_toJson]

/-- C4 witness: in the well-behaved environment the generator returns the
sample record, whose five fields are non-empty. -/
theorem accepted_email_gives_nonempty_fields_witness :
    (generate_email_inputs env0).1 = GenResult.ok sample ∧ sample.allNonEmpty = true :=
  accepted_email_gives_nonempty_fields env0 sample rfl (fun _ => rfl) rfl rfl rfl rfl

/-- C3: when the two mode flags agree, the process exits with status 1
having produced only the diagnostic -- no file read or write, no
subprocess, no prover operation appears in the trace; when they differ,
exactly one orchestrator branch runs: no setup, prove or verify operation
in execute mode, and no execute operation in prove mode. -/
theorem mode_selector_gate (args : Args) (env : Env) :
    (args.execute = args.prove →
       mainModel args env = (.exited 1, [Event.modeError])) ∧
    (args.execute = true → args.prove = false →
       Event.setupKeys ∉ (mainModel args env).2 ∧
       Event.proveProgram ∉ (mainModel args env).2 ∧
       Event.verifyProof ∉ (mainModel args env).2) ∧
    (args.execute = false → args.prove = true →
       Event.executeProgram ∉ (mainModel args env).2) := by
  refine ⟨fun h => by simp [mainModel, h], ?_, ?_⟩
  · intro he hp
    have hne : ¬ args.execute = args.prove := by rw [he, hp]; simp
    have hsk := not_mem_gen_trace env .setupKeys (by simp) (by simp) (by simp) (by simp)
    have hpp := not_mem_gen_trace env .proveProgram (by simp) (by simp) (by simp) (by simp)
    have hvp := not_mem_gen_trace env .verifyProof (by simp) (by simp) (by simp) (by simp)
    unfold mainModel
    rw [if_neg hne]
    cases hte : env.testEmail
    · simp
    · rcases hg : generate_email_inputs env with ⟨res, g⟩
      rw [hg] at hsk hpp hvp
      cases res <;> simp [he] <;>
        cases hex : env.executeOk <;>
        simp_all
  · intro he hp
    have hne : ¬ args.execute = args.prove := by rw [he, hp]; simp
    have hep := not_mem_gen_trace env .executeProgram (by simp) (by simp) (by simp) (by simp)
    unfold mainModel
    rw [if_neg hne]
    cases hte : env.testEmail
    · simp
    · rcases hg : generate_email_inputs env with ⟨res, g⟩
      rw [hg] at hep
      cases res <;> simp [he] <;>
        cases hpr : env.proveOk <;>
        cases hv : env.verifyOk <;>
        simp_all

/-- C3 witness: with both flags set, the run exits 1 having printed only
the diagnostic; in execute mode no prover-branch operation occurs; in
prove mode no execute operation occurs. -/
theorem mode_selector_gate_witness :
    mainModel ⟨true, true, 20⟩ env0 = (.exited 1, [Event.modeError]) ∧
    Event.setupKeys ∉ (mainModel argsExec env0).2 ∧
    Event.executeProgram ∉ (mainModel argsProve env0).2 :=
  ⟨(mode_selector_gate ⟨true, true, 20⟩ env0).1 rfl,
   ((mode_selector_gate argsExec env0).2.1 rfl rfl).1,
   (mode_selector_gate argsProve env0).2.2 rfl rfl⟩

/-- C7 counterexample: with the email file missing, the run panics at the
read in `main` with the test-email read message -- not at the generator's
persist step with its write failure -- and the persist step (and every
later generator step) never runs: the generator is never invoked. -/
theorem missing_email_not_write_error_cex :
    mainModel argsExec { env0 with testEmail := none } =
      (.panicked "Failed to read test email file - ensure test-emails/test-email.eml exists",
       [Event.clientNew, Event.readTestEmail]) ∧
    (mainModel argsExec { env0 with testEmail := none }).1 ≠
      Outcome.panicked "failed to write email.eml" ∧
    Event.writeEmailEml ∉ (mainModel argsExec { env0 with testEmail := none }).2 ∧
    Event.spawnCanonicalizer ∉ (mainModel argsExec { env0 with testEmail := none }).2 :=
  ⟨rfl, by decide, by decide, by decide⟩

/-- C7 amended: when the source email file is missing the process panics
in `main` while reading it, with the test-email read message, before the
Email Input Generator is invoked -- so before any write and before any
subprocess is spawned -- and terminates with a non-zero status. -/
theorem missing_email_fails_before_generator (args : Args) (env : Env)
    (hm : ¬ args.execute = args.prove) (hte : env.testEmail = none) :
    mainModel args env =
      (.panicked "Failed to read test email file - ensure test-emails/test-email.eml exists",
       [Event.clientNew, Event.readTestEmail]) ∧
    Outcome.nonZero (mainModel args env).1 = true := by
  have h1 : mainModel args env =
      (.panicked "Failed to read test email file - ensure test-emails/test-email.eml exists",
       [Event.clientNew, Event.readTestEmail]) := by
    simp [mainModel, hm, hte]
  exact ⟨h1, by rw [h1]; rfl⟩

/-- C7 amended witness: the missing-email run in execute mode. -/
theorem missing_email_fails_before_generator_witness :
    mainModel argsExec { env0 with testEmail := none } =
      (.panicked "Failed to read test email file - ensure test-emails/test-email.eml exists",
       [Event.clientNew, Event.readTestEmail]) :=
  (missing_email_fails_before_generator argsExec { env0 with testEmail := none }
    (by decide) rfl).1

/-- C1: whenever the proof-generated confirmation was printed, the verify
operation appears in the trace; if verification succeeds the run exits 0
and prints the verified confirmation, and if it fails the run panics with
the verification message -- a non-zero exit -- and the verified
confirmation is never printed: success is never reported with
verification skipped or suppressed. -/
theorem prove_mode_always_verifies (args : Args) (env : Env)
    (hpg : Event.printProofGenerated ∈ (mainModel args env).2) :
    Event.verifyProof ∈ (mainModel args env).2 ∧
    ((env.verifyOk = true ∧ (mainModel args env).1 = .exited 0 ∧
        Event.printProofVerified ∈ (mainModel args env).2) ∨
     (env.verifyOk = false ∧
        (mainModel args env).1 = .panicked "failed to verify proof" ∧
        Outcome.nonZero (mainModel args env).1 = true ∧
        Event.printProofVerified ∉ (mainModel args env).2)) := by
  have hg1 := not_mem_gen_trace env .printProofGenerated (by simp) (by simp) (by simp) (by simp)
  have hg2 := not_mem_gen_trace env .printProofVerified (by simp) (by simp) (by simp) (by simp)
  by_cases hmode : args.execute = args.prove
  · simp [mainModel, hmode] at hpg
  · unfold mainModel at hpg ⊢
    rw [if_neg hmode] at hpg ⊢
    cases hte : env.testEmail
    · rw [hte] at hpg
      simp at hpg
    · rw [hte] at hpg
      rcases hg : generate_email_inputs env with ⟨res, g⟩
      rw [hg] at hg1 hg2
      dsimp only at hg1 hg2
      simp only [hg] at hpg ⊢
      cases res with
      | panic m => simp_all
      | err m => simp_all
      | ok inputs =>
        cases hex : args.execute
        · cases hpr : env.proveOk
          · simp_all
          · cases hv : env.verifyOk
            · refine ⟨by simp, Or.inr ⟨rfl, by simp, by simp [Outcome.nonZero], ?_⟩⟩
              simp [hg2]
            · exact ⟨by simp, Or.inl ⟨rfl, by simp, by simp⟩⟩
        · cases hexo : env.executeOk <;> simp_all

/-- C1 witness: the all-success prove-mode run performs verification. -/
theorem prove_mode_always_verifies_witness :
    Event.verifyProof ∈ (mainModel argsProve env0).2 :=
  (prove_mode_always_verifies argsProve env0 (by decide)).1

/-- C8: a prove-mode run that exits 0 printed the proof-generated
confirmation and then, after the verify operation, the proof-verified
confirmation -- in that order, at the end of its trace. -/
theorem prove_success_prints_in_order (args : Args) (env : Env)
    (he : args.execute = false) (hp : args.prove = true)
    (h0 : (mainModel args env).1 = .exited 0) :
    ∃ pre, (mainModel args env).2 =
      pre ++ [Event.printProofGenerated, Event.verifyProof, Event.printProofVerified] := by
  have hne : ¬ args.execute = args.prove := by rw [he, hp]; simp
  unfold mainModel at h0 ⊢
  rw [if_neg hne] at h0 ⊢
  cases hte : env.testEmail
  · rw [hte] at h0
    simp at h0
  · rw [hte] at h0
    rcases hg : generate_email_inputs env with ⟨res, g⟩
    simp only [hg] at h0 ⊢
    cases res with
    | panic m => simp at h0
    | err m => simp at h0
    | ok inputs =>
      simp only [he] at h0 ⊢
      cases hpr : env.proveOk
      · simp [hpr] at h0
      · cases hv : env.verifyOk
        · simp [hpr, hv] at h0
        · refine ⟨[Event.clientNew, Event.readTestEmail] ++ g ++
            [Event.setupKeys, Event.proveProgram], ?_⟩
          simp

/-- C8 witness: the all-success prove-mode run exits 0 with the ordered
confirmations at the end of its trace. -/
theorem prove_success_prints_in_order_witness :
    ∃ pre, (mainModel argsProve env0).2 =
      pre ++ [Event.printProofGenerated, Event.verifyProof, Event.printProofVerified] :=
  prove_success_prints_in_order argsProve env0 rfl rfl (by decide)

/-- C10: the `--n` flag is parsed but never read by any pipeline step: two
command lines differing only in `n`, against the same environment, yield
the identical outcome and the identical trace. -/
theorem flag_n_never_read (e p : Bool) (n₁ n₂ : Nat) (env : Env) :
    mainModel ⟨e, p, n₁⟩ env = mainModel ⟨e, p, n₂⟩ env := rfl

end ZkEmail
